import Mathlib

/-!
Verification of the configuration headers of the EMBEDDATHON26 repository.

The repository consists of five C header files that contain only
preprocessor constant definitions (`#define NAME value`), include
directives, header guards, comments and blank lines.  We embed each file
as the exact list of its source lines, give an executable parser for
`#define` directives, and prove the specified properties of the
resulting constant tables by evaluation.
-/

/-- A value bound by a `#define` directive: a C string literal, an
integer literal (decimal, hexadecimal or negated), or nothing at all
(a bare header-guard define). -/
inductive CValue where
  | str (s : String)
  | int (n : Int)
  | emptyv
deriving DecidableEq, BEq, Repr

/-- The double-quote character, used as the C string-literal delimiter. -/
def quoteChar : Char := Char.ofNat 34

/-- Drop leading space characters from a character list. -/
def dropSpaces : List Char → List Char
  | [] => []
  | c :: cs => if c == ' ' then dropSpaces cs else c :: cs

/-- Take characters up to (excluding) the first space: one whitespace
separated token. -/
def takeTok : List Char → List Char
  | [] => []
  | c :: cs => if c == ' ' then [] else c :: takeTok cs

/-- Take characters up to (excluding) the closing double quote of a C
string literal (the opening quote has already been consumed). -/
def takeStrLit : List Char → List Char
  | [] => []
  | c :: cs => if c == quoteChar then [] else c :: takeStrLit cs

/-- Numeric value of a hexadecimal digit character. -/
def hexDigit (c : Char) : Nat :=
  if 48 ≤ c.toNat && c.toNat ≤ 57 then c.toNat - 48
  else if 97 ≤ c.toNat then c.toNat - 87
  else c.toNat - 55

/-- Accumulate the digits of a token in the given base. -/
def parseNatAcc (base : Nat) : List Char → Nat → Nat
  | [], acc => acc
  | c :: cs, acc => parseNatAcc base cs (acc * base + hexDigit c)

/-- Parse a C integer literal token: `-1`, `0x3C`, or plain decimal. -/
def parseIntTok : List Char → Int
  | '-' :: cs => - Int.ofNat (parseNatAcc 10 cs 0)
  | '0' :: 'x' :: cs => Int.ofNat (parseNatAcc 16 cs 0)
  | cs => Int.ofNat (parseNatAcc 10 cs 0)

/-- Parse the body of a `#define` line (the characters after the
`#define ` keyword is stripped by the caller): the macro name followed by
an optional value, which is a string literal, an integer literal, or
absent for a bare guard define.  Trailing `//` comments after a value
are ignored, as the C preprocessor ignores them for these headers. -/
def parseDefine (l : List Char) : String × CValue :=
  let rest := dropSpaces (l.drop 8)
  let name := takeTok rest
  let val := dropSpaces (rest.drop name.length)
  match val with
  | [] => (String.mk name, CValue.emptyv)
  | c :: cs =>
      if c == quoteChar then (String.mk name, CValue.str (String.mk (takeStrLit cs)))
      else (String.mk name, CValue.int (parseIntTok (takeTok val)))

/-- All `#define` directives of a file, in order, as name/value pairs. -/
def fileDefines (ls : List String) : List (String × CValue) :=
  (ls.map String.data).filterMap fun l =>
    if List.isPrefixOf "#define ".data l then some (parseDefine l) else none

/-- The names bound by `#define` directives of a file, in order. -/
def defineNames (ls : List String) : List String :=
  (fileDefines ls).map Prod.fst

/-- Whether a file contains a `#define` for the given macro name. -/
def definesName (ls : List String) (n : String) : Bool :=
  (fileDefines ls).any fun p => p.1 == n

/-- Look up the value bound to a macro name by a file's first `#define`
of that name; `none` when the file never defines the name. -/
def getDef (ls : List String) (n : String) : Option CValue :=
  ((fileDefines ls).find? fun p => p.1 == n).map fun p => p.2

/-- The string content of a looked-up value, when it is a string literal. -/
def strVal : Option CValue → Option String
  | some (CValue.str s) => some s
  | _ => none

/-- A source line with no executable content: blank, a comment line
(`//`, or part of a `/* ... */` block), or one of the preprocessor
directives `#ifndef`, `#define`, `#include`, `#endif`. -/
def nonExecutableLine (s : String) : Bool :=
  let l := dropSpaces s.data
  l.isEmpty
    || List.isPrefixOf "//".data l
    || List.isPrefixOf "/*".data l
    || List.isPrefixOf "*".data l
    || List.isPrefixOf "#ifndef ".data l
    || List.isPrefixOf "#define ".data l
    || List.isPrefixOf "#include ".data l
    || l == "#endif".data

/-- Whether a list of macro names contains no duplicate. -/
def nodupNames : List String → Bool
  | [] => true
  | n :: ns => (!ns.contains n) && nodupNames ns

/-- Whether all values in a list are equal. -/
def allEqualV : List CValue → Bool
  | [] => true
  | v :: vs => vs.all fun w => w == v

/-- Whether a looked-up pin value lies in the ESP32 GPIO range 0..39
(vacuously true when the file does not define the pin; false when the
name is bound to a non-integer). -/
def pinInRange (v : Option CValue) : Bool :=
  match v with
  | some (CValue.int n) => decide (0 ≤ n) && decide (n ≤ 39)
  | some _ => false
  | none => true

/-- `src/Task2_PriorityGuardian/config.h`, line by line. -/
def task2Config : List String := [
  "#ifndef CONFIG_H",
  "#define CONFIG_H",
  "",
  "// WiFi Credentials",
  "#define WIFI_SSID \"vivo V30 Pro\"",
  "#define WIFI_PASSWORD \"micromax\"",
  "",
  "// MQTT Broker",
  "#define MQTT_BROKER \"broker.mqttdashboard.com\"",
  "#define MQTT_PORT 1883",
  "",
  "// Team Identifiers",
  "#define TEAM_ID \"aniruddhyembedded\"",
  "#define REEF_ID \"aniruddhyelluriyembedded\"",
  "",
  "// Hardware Pins (RGB LED)",
  "#define LED_RED 18",
  "#define LED_GREEN 19",
  "#define LED_BLUE 23",
  "#define BUTTON_PIN 4",
  "",
  "// OLED Display",
  "#define OLED_SDA 21",
  "#define OLED_SCL 22",
  "#define OLED_ADDR 0x3C",
  "",
  "#endif",
  ""]

/-- `src/Task2_PriorityGuardian/priority_guardian/config.h`, line by line. -/
def task2PrioConfig : List String := [
  "#ifndef CONFIG_H",
  "#define CONFIG_H",
  "",
  "// WiFi Credentials",
  "#define WIFI_SSID \"vivohotspot\"",
  "#define WIFI_PASSWORD \"micromax\"",
  "",
  "// MQTT Broker",
  "#define MQTT_BROKER \"broker.mqttdashboard.com\"",
  "#define MQTT_PORT 1883",
  "",
  "// Team Identifiers",
  "#define TEAM_ID \"aniruddhyembedded\"",
  "#define REEF_ID \"aniruddhyelluriyembedded\"",
  "",
  "// Hardware Pins",
  "#define DISTRESS_LED 2  // ESP32 onboard LED",
  "",
  "#endif",
  ""]

/-- `src/Task3_WindowSync/config.h`, line by line. -/
def task3Config : List String := [
  "#ifndef CONFIG_H",
  "#define CONFIG_H",
  "",
  "// WiFi Credentials",
  "#define WIFI_SSID \"crn_net\"",
  "#define WIFI_PASSWORD \"crn_l016\"",
  "",
  "// MQTT Broker",
  "#define MQTT_BROKER \"broker.mqttdashboard.com\"",
  "#define MQTT_PORT 1883",
  "",
  "// Team Identifiers",
  "#define TEAM_ID \"aniruddhyembedded\"",
  "#define REEF_ID \"aniruddhyelluriyembedded\"",
  "",
  "// Window Topic from Task 2 - UPDATE THIS WITH YOUR ACTUAL CODE",
  "#define WINDOW_TOPIC \"lkjhgf_window\"",
  "",
  "// Hardware Pins (Common Anode RGB LED)",
  "#define LED_RED 18      // Red channel - no window indicator",
  "#define LED_GREEN 19    // Green channel - button press indicator",
  "#define LED_BLUE 23     // Blue channel - window open indicator",
  "#define BUTTON_PIN 4    // Push button",
  "",
  "// OLED Display (optional)",
  "#define OLED_SDA 21",
  "#define OLED_SCL 22",
  "#define OLED_ADDR 0x3C",
  "",
  "#endif",
  ""]

/-- `src/Task4_Steganography/config.h`, line by line. -/
def task4Config : List String := [
  "#ifndef CONFIG_H",
  "#define CONFIG_H",
  "",
  "// WiFi Credentials",
  "#define WIFI_SSID \"crn_net\"",
  "#define WIFI_PASSWORD \"crn_l016\"",
  "",
  "// MQTT Broker",
  "#define MQTT_BROKER \"broker.mqttdashboard.com\"",
  "#define MQTT_PORT 1883",
  "",
  "// Team Identifiers",
  "#define TEAM_ID \"aniruddhyembedded\"",
  "#define REEF_ID \"aniruddhyelluriyembedded\"",
  "",
  "// Task 4 specific",
  "#define CHALLENGE_CODE \"lkjhgf\"           // From Task 2",
  "#define REQUEST_TOPIC \"kelpsaute/steganography\"",
  "#define HIDDEN_MESSAGE \"lkjhgf\"           // Hidden message from Task 3",
  "",
  "#endif",
  ""]

/-- `src/Task6_Submit/oled_driver.h`, line by line. -/
def task6Oled : List String := [
  "/*",
  " * OLED Driver Helper for Task 6",
  " * Uses Adafruit SSD1306 library",
  " */",
  "",
  "#ifndef OLED_DRIVER_H",
  "#define OLED_DRIVER_H",
  "",
  "#include <Wire.h>",
  "#include <Adafruit_GFX.h>",
  "#include <Adafruit_SSD1306.h>",
  "",
  "#define SCREEN_WIDTH   128",
  "#define SCREEN_HEIGHT  64",
  "#define OLED_RESET     -1",
  "#define OLED_ADDR      0x3C",
  "#define I2C_SDA        21",
  "#define I2C_SCL        22",
  "",
  "#endif"]

/-- All five supplied source files. -/
def allFiles : List (List String) :=
  [task2Config, task2PrioConfig, task3Config, task4Config, task6Oled]

/-- The four `config.h` files (all supplied files except the Task 6 OLED
driver header). -/
def configFiles : List (List String) :=
  [task2Config, task2PrioConfig, task3Config, task4Config]

/-- The WiFi-credential, broker and team-identifier constant names that
the spec says every file defines. -/
def coreNames : List String :=
  ["WIFI_SSID", "WIFI_PASSWORD", "MQTT_BROKER", "MQTT_PORT", "TEAM_ID", "REEF_ID"]

/-- The pin-number constant names appearing across the supplied files. -/
def pinNames : List String :=
  ["LED_RED", "LED_GREEN", "LED_BLUE", "BUTTON_PIN", "OLED_SDA", "OLED_SCL",
   "DISTRESS_LED", "I2C_SDA", "I2C_SCL", "OLED_RESET"]

/-- The header-guard macro names, which carry no value. -/
def guardNames : List String := ["CONFIG_H", "OLED_DRIVER_H"]

/-- Every macro name defined anywhere across the supplied files, without
duplicates. -/
def allMacroNames : List String :=
  ((allFiles.map defineNames).flatten).dedup

/-- The values a macro name is bound to across all files defining it. -/
def valuesOf (n : String) : List CValue :=
  allFiles.filterMap fun f => getDef f n

/-- Whether a looked-up value is a literal (string or integer), as
opposed to absent or a bare guard define. -/
def isLiteral : CValue → Bool
  | CValue.str _ => true
  | CValue.int _ => true
  | CValue.emptyv => false

/-- C1 counterexample: `Task6_Submit/oled_driver.h` is one of the supplied
files yet defines neither `WIFI_SSID` nor any of the credential, broker
and team-identifier constants, so not every supplied file defines the
full constant set. -/
theorem C1_counterexample :
    task6Oled ∈ allFiles ∧
    definesName task6Oled "WIFI_SSID" = false ∧
    (coreNames.all fun n => definesName task6Oled n) = false := by
  refine ⟨by decide, by decide, by decide⟩

/-- C1 (amended): each of the four `config.h` files defines all six of
`WIFI_SSID`, `WIFI_PASSWORD`, `MQTT_BROKER`, `MQTT_PORT`, `TEAM_ID` and
`REEF_ID`, while `Task6_Submit/oled_driver.h` defines none of them. -/
theorem C1_core_constants_in_config_files :
    (configFiles.all fun f => coreNames.all fun n => definesName f n) = true ∧
    (coreNames.any fun n => definesName task6Oled n) = false := by
  refine ⟨by decide, by decide⟩

/-- C2 counterexample: the relations the claim rules out in fact hold:
`WINDOW_TOPIC` in the Task 3 config is exactly `CHALLENGE_CODE` of the
Task 4 config with `_window` appended, and `HIDDEN_MESSAGE` equals
`CHALLENGE_CODE`. -/
theorem C2_counterexample :
    strVal (getDef task4Config "CHALLENGE_CODE") = some "lkjhgf" ∧
    strVal (getDef task3Config "WINDOW_TOPIC") = some ("lkjhgf" ++ "_window") ∧
    strVal (getDef task4Config "HIDDEN_MESSAGE") =
      strVal (getDef task4Config "CHALLENGE_CODE") := by
  refine ⟨by decide, by decide, by decide⟩

/-- C2 (amended): the Task 3 and Task 4 string constants are related:
`WINDOW_TOPIC` is the concatenation of `CHALLENGE_CODE` and `_window`,
and `HIDDEN_MESSAGE` equals `CHALLENGE_CODE`, both being defined string
constants. -/
theorem C2_constant_relations :
    (strVal (getDef task4Config "CHALLENGE_CODE")).map (fun c => c ++ "_window") =
      strVal (getDef task3Config "WINDOW_TOPIC") ∧
    strVal (getDef task4Config "HIDDEN_MESSAGE") =
      strVal (getDef task4Config "CHALLENGE_CODE") ∧
    strVal (getDef task4Config "CHALLENGE_CODE") ≠ none := by
  refine ⟨by decide, by decide, by decide⟩

/-- C3 counterexample: `OLED_RESET` in `Task6_Submit/oled_driver.h` is
bound to the integer `-1`, which is outside the ESP32 GPIO range 0..39,
so not every pin-number constant is in that range. -/
theorem C3_counterexample :
    getDef task6Oled "OLED_RESET" = some (CValue.int (-1)) ∧
    pinInRange (getDef task6Oled "OLED_RESET") = false := by
  refine ⟨by decide, by decide⟩

/-- C3 (amended): every pin-number constant other than `OLED_RESET`
defined in any supplied file is an integer within the ESP32 GPIO range
0..39; `OLED_RESET` alone is `-1`, the Adafruit SSD1306 sentinel for a
display with no dedicated reset pin. -/
theorem C3_pins_in_gpio_range :
    (allFiles.all fun f =>
      (pinNames.filter fun p => p != "OLED_RESET").all fun p =>
        pinInRange (getDef f p)) = true ∧
    getDef task6Oled "OLED_RESET" = some (CValue.int (-1)) ∧
    (configFiles.all fun f => !definesName f "OLED_RESET") = true := by
  refine ⟨by decide, by decide, by decide⟩

/-- C4: in each supplied header file, no macro name appears in two
`#define` directives of that file: the per-file lists of defined names
are duplicate-free. -/
theorem C4_names_defined_once_per_file :
    (allFiles.all fun f => nodupNames (defineNames f)) = true := by
  decide

/-- C5: every file that defines `OLED_ADDR` binds it to `0x3C`, the
documented I2C address of the SSD1306 display module; the remaining two
files do not define it. -/
theorem C5_oled_addr_is_3C :
    getDef task2Config "OLED_ADDR" = some (CValue.int 0x3C) ∧
    getDef task3Config "OLED_ADDR" = some (CValue.int 0x3C) ∧
    getDef task6Oled "OLED_ADDR" = some (CValue.int 0x3C) ∧
    getDef task2PrioConfig "OLED_ADDR" = none ∧
    getDef task4Config "OLED_ADDR" = none := by
  refine ⟨by decide, by decide, by decide, by decide, by decide⟩

/-- C6: the supplied source contains no executable logic: every line of
every file is blank, a comment, or one of the preprocessor directives
`#ifndef`, `#define`, `#include`, `#endif`. -/
theorem C6_no_executable_logic :
    (allFiles.all fun f => f.all nonExecutableLine) = true := by
  decide

/-- C7: every configuration constant is fixed at build time: each
non-guard `#define` binds its name to a single literal value, each name
is bound at most once per file, and no line of any file is executable
code that could alter a value at runtime. -/
theorem C7_constants_fixed_at_build_time :
    (allFiles.all fun f =>
      (fileDefines f).all fun p => guardNames.contains p.1 || isLiteral p.2) = true ∧
    (allFiles.all fun f => nodupNames (defineNames f)) = true ∧
    (allFiles.all fun f => f.all nonExecutableLine) = true := by
  refine ⟨by decide, by decide, by decide⟩

/-- C8: every macro name defined in more than one supplied file, except
the WiFi credentials `WIFI_SSID` and `WIFI_PASSWORD` (whose values do
differ between files), has the identical value in every file defining
it; in particular the four config files agree on `MQTT_BROKER`,
`MQTT_PORT`, `TEAM_ID` and `REEF_ID` with the stated values. -/
theorem C8_shared_constants_agree :
    (allMacroNames.all fun n =>
      (n == "WIFI_SSID" || n == "WIFI_PASSWORD") || allEqualV (valuesOf n)) = true ∧
    allEqualV (valuesOf "WIFI_SSID") = false ∧
    allEqualV (valuesOf "WIFI_PASSWORD") = false ∧
    (configFiles.all fun f =>
      getDef f "MQTT_BROKER" == some (CValue.str "broker.mqttdashboard.com")) = true ∧
    (configFiles.all fun f => getDef f "MQTT_PORT" == some (CValue.int 1883)) = true ∧
    (configFiles.all fun f =>
      getDef f "TEAM_ID" == some (CValue.str "aniruddhyembedded")) = true ∧
    (configFiles.all fun f =>
      getDef f "REEF_ID" == some (CValue.str "aniruddhyelluriyembedded")) = true := by
  refine ⟨by decide, by decide, by decide, by decide, by decide, by decide, by decide⟩
